import Mathlib

/-!
Shallow embedding of the MAX17048 fuel-gauge driver
(src/hackberrypi-max17048.c).

A register read is modelled as `Except Int Nat`: `.error e` carries the
negative errno returned by the transport (`regmap_read`), `.ok raw` carries
the 16-bit register value. Each driver getter becomes a pure function of the
read results it consumes, mirroring the C control flow statement by
statement. `int` error flattening (a getter that returns either a negative
errno or a non-negative value in one `int`) is kept where the C does it
(`max17048_get_soc` inside `max17048_get_status`).
-/

namespace Max17048

/-- Linux errno `ENODATA`; the driver returns `-ENODATA` for "not applicable". -/
def ENODATA : Int := 61

/-- Kernel `div_s64`: signed 64-bit division truncating toward zero. -/
def div_s64 (a b : Int) : Int := Int.tdiv a b

/-- The C cast `(int16_t)crate_raw`: sign extension of a raw 16-bit value. -/
def toInt16 (raw : Nat) : Int :=
  if raw < 32768 then (raw : Int) else (raw : Int) - 65536

/-- `max17048_get_vcell`: voltage in uV, `vcell * 625 / 8` computed in the
C's `u32` arithmetic (so the product is reduced mod 2^32). -/
def max17048_get_vcell (vcellRead : Except Int Nat) : Except Int Nat :=
  match vcellRead with
  | .error e => .error e
  | .ok raw => .ok (raw * 625 % 4294967296 / 8)

/-- `max17048_get_soc`: state of charge in percent, `soc /= 256` then
clamped above at 100. -/
def max17048_get_soc (socRead : Except Int Nat) : Except Int Nat :=
  match socRead with
  | .error e => .error e
  | .ok raw =>
    let soc := raw / 256
    .ok (if soc > 100 then 100 else soc)

/-- `max17048_get_crate`: sign-extended raw C-Rate register value. -/
def max17048_get_crate (crateRead : Except Int Nat) : Except Int Int :=
  match crateRead with
  | .error e => .error e
  | .ok raw => .ok (toInt16 raw)

/-- `max17048_get_current`: current in uA,
`div_s64(charge_full_design_uah * crate * 52, 25000)`. -/
def max17048_get_current (crateRead : Except Int Nat)
    (charge_full_design_uah : Nat) : Except Int Int :=
  match max17048_get_crate crateRead with
  | .error e => .error e
  | .ok crate => .ok (div_s64 ((charge_full_design_uah : Int) * crate * 52) 25000)

/-- `POWER_SUPPLY_STATUS_*` values the driver can return. -/
inductive ChargeStatus where
  | Charging
  | Discharging
  | Full
  | NotCharging
  | Unknown
  deriving DecidableEq, Repr

/-- `max17048_get_status`: crate read failure gives `Unknown`; crate above
the +4 noise threshold gives `Charging`, below -4 `Discharging`; inside the
band the (error-flattened) SOC decides `Full` (>= 95) versus `NotCharging`. -/
def max17048_get_status (crateRead socRead : Except Int Nat) : ChargeStatus :=
  match max17048_get_crate crateRead with
  | .error _ => .Unknown
  | .ok crate =>
    if crate > 4 then .Charging
    else if crate < -4 then .Discharging
    else
      let soc : Int :=
        match max17048_get_soc socRead with
        | .ok s => (s : Int)
        | .error e => e
      if soc ≥ 95 then .Full else .NotCharging

/-- `max17048_get_time_to_empty`: `-ENODATA` unless `crate < -10`; SOC read
errors propagate; otherwise `div_s64(225000 * soc * 8, |crate| * 13)`. -/
def max17048_get_time_to_empty (crateRead socRead : Except Int Nat) :
    Except Int Int :=
  match max17048_get_crate crateRead with
  | .error e => .error e
  | .ok crate =>
    if crate ≥ -10 then .error (-ENODATA)
    else
      match max17048_get_soc socRead with
      | .error e => .error e
      | .ok soc =>
        let discharge_rate : Int := |crate|
        .ok (div_s64 (225000 * (soc : Int) * 8) (discharge_rate * 13))

/-- `max17048_get_time_to_full`: `-ENODATA` unless `crate > 10`; SOC read
errors propagate; otherwise `div_s64(225000 * (100 - soc), crate * 13)`
with no x8 tuning factor. -/
def max17048_get_time_to_full (crateRead socRead : Except Int Nat) :
    Except Int Int :=
  match max17048_get_crate crateRead with
  | .error e => .error e
  | .ok crate =>
    if crate ≤ 10 then .error (-ENODATA)
    else
      match max17048_get_soc socRead with
      | .error e => .error e
      | .ok soc => .ok (div_s64 (225000 * (100 - (soc : Int))) (crate * 13))

/-- `POWER_SUPPLY_CAPACITY_LEVEL_*` values the driver can return. -/
inductive CapacityLevel where
  | Full
  | Normal
  | Low
  | Critical
  | Unknown
  deriving DecidableEq, Repr

/-- `max17048_get_capacity_level`: reads SOC and status (the status pass
uses its own crate read and its own second SOC read, as in the C); SOC read
failure gives `Unknown`, then Full / Critical / Low / Normal thresholds in
source order. -/
def max17048_get_capacity_level (socRead crateRead socRead2 : Except Int Nat) :
    CapacityLevel :=
  let status := max17048_get_status crateRead socRead2
  match max17048_get_soc socRead with
  | .error _ => .Unknown
  | .ok soc =>
    if status = ChargeStatus.Full ∨ soc ≥ 99 then .Full
    else if soc ≤ 5 then .Critical
    else if soc ≤ 15 then .Low
    else .Normal

/-- `battery_get_property` case `POWER_SUPPLY_PROP_CHARGE_NOW`:
`div_s64(soc * charge_full_design_uah, 100)`, SOC read errors propagate. -/
def battery_charge_now (socRead : Except Int Nat)
    (charge_full_design_uah : Nat) : Except Int Int :=
  match max17048_get_soc socRead with
  | .error e => .error e
  | .ok soc => .ok (div_s64 ((soc : Int) * charge_full_design_uah) 100)

/-- `battery_get_property` case `POWER_SUPPLY_PROP_ENERGY_NOW`:
`div_s64(soc * energy_full_design_uwh, 100)`, SOC read errors propagate. -/
def battery_energy_now (socRead : Except Int Nat)
    (energy_full_design_uwh : Nat) : Except Int Int :=
  match max17048_get_soc socRead with
  | .error e => .error e
  | .ok soc => .ok (div_s64 ((soc : Int) * energy_full_design_uwh) 100)

/-- One refresh pass reading voltage and current: the voltage component is a
function of the VCELL read alone, the current component of the CRATE read
alone (as in `battery_get_property`, which performs independent getter calls). -/
def refresh_pass_voltage_current (vcellRead crateRead : Except Int Nat)
    (charge_full_design_uah : Nat) : Except Int Nat × Except Int Int :=
  (max17048_get_vcell vcellRead, max17048_get_current crateRead charge_full_design_uah)

/-- `max17048_probe` capacity resolution: the explicit
`charge-full-design-microamp-hours` property (zero-initialised storage when
the read fails) is clamped at 10,000,000 uAh, then - only when the explicit
read failed - the legacy `battery-capacity` (mAh) fallback is taken when
`0 < mah < 20000`, converted x1000 in u32 arithmetic; a still-zero value
becomes the 5,000,000 uAh default. -/
def resolve_design_capacity (explicitCapUah legacyCapMah : Option Nat) : Nat :=
  let uah := match explicitCapUah with | some v => v | none => 0
  let uah := if uah > 10000000 then 10000000 else uah
  let uah :=
    match explicitCapUah with
    | some _ => uah
    | none =>
      match legacyCapMah with
      | some mah => if 0 < mah ∧ mah < 20000 then mah * 1000 % 4294967296 else uah
      | none => uah
  if uah = 0 then 5000000 else uah

/-- `max17048_probe` energy resolution: the explicit
`energy-full-design-microwatt-hours` property when present and nonzero,
otherwise `div_u64(uah * 37, 10)` cast to u32; the result is clamped at
18,500,000 uWh. -/
def resolve_design_energy (charge_full_design_uah : Nat)
    (explicitEnergyUwh : Option Nat) : Nat :=
  let uwh :=
    match explicitEnergyUwh with
    | some v => if v = 0 then charge_full_design_uah * 37 / 10 % 4294967296 else v
    | none => charge_full_design_uah * 37 / 10 % 4294967296
  if uwh > 18500000 then 18500000 else uwh

/-- C5: for every raw 16-bit charge-percent code, `max17048_get_soc` returns
floor(raw / 256) clamped above at 100, and every raw code >= 25600 yields
exactly 100 (an over-100% register value is clamped, not an error). -/
theorem C5_soc_clamping (raw : Nat) :
    max17048_get_soc (.ok raw) = .ok (min (raw / 256) 100) ∧
    (25600 ≤ raw → max17048_get_soc (.ok raw) = .ok 100) := by
  have h : max17048_get_soc (.ok raw) =
      .ok (if raw / 256 > 100 then 100 else raw / 256) := rfl
  constructor
  · rw [h]
    congr 1
    split <;> omega
  · intro hr
    rw [h]
    congr 1
    split <;> omega

/-- C6: for every raw 16-bit voltage register code, `max17048_get_vcell`
returns exactly raw * 625 / 8 microvolts with truncating division: the u32
product raw * 625 does not overflow, so the result agrees with what 64-bit
intermediate arithmetic would give. -/
theorem C6_vcell_scaling (raw : Nat) (h : raw < 65536) :
    max17048_get_vcell (.ok raw) = .ok (raw * 625 / 8) := by
  simp only [max17048_get_vcell]
  congr 1
  omega

/-- C6 witness at the largest 16-bit code. -/
theorem C6_vcell_scaling_witness :
    max17048_get_vcell (.ok 65535) = .ok (65535 * 625 / 8) :=
  C6_vcell_scaling 65535 (by decide)

/-- C10: when the crate read succeeds with a value in the noise band
(|crate| <= 4) and the charge-percent read fails with a (negative) transport
error, `max17048_get_status` returns `NotCharging` - not `Unknown` and not a
propagated error. -/
theorem C10_soc_failure_not_charging (craw : Nat) (e : Int) (he : e < 0)
    (hband : |toInt16 craw| ≤ 4) :
    max17048_get_status (.ok craw) (.error e) = ChargeStatus.NotCharging := by
  rw [abs_le] at hband
  simp only [max17048_get_status, max17048_get_crate, max17048_get_soc]
  rw [if_neg (by omega), if_neg (by omega), if_neg (by omega)]

/-- C10 witness: crate = 0, SOC read failing with errno -5. -/
theorem C10_soc_failure_not_charging_witness :
    max17048_get_status (.ok 0) (.error (-5)) = ChargeStatus.NotCharging :=
  C10_soc_failure_not_charging 0 (-5) (by decide) (by decide)

/-- C4: `max17048_get_status` totalises crate and percent: a crate read
failure gives `Unknown` (never a propagated error); crate > +4 gives
`Charging`, crate < -4 `Discharging`; in the band |crate| <= 4 the charge
percent decides `Full` (>= 95) versus `NotCharging`; with the concrete cases
crate=5 Charging, crate=-5 Discharging, crate=0/percent=96 Full,
crate=0/percent=50 NotCharging. -/
theorem C4_status_classification (e : Int) (craw : Nat) (sr : Except Int Nat)
    (soc : Nat) (hs : max17048_get_soc sr = .ok soc) :
    max17048_get_status (.error e) sr = ChargeStatus.Unknown ∧
    (4 < toInt16 craw →
      max17048_get_status (.ok craw) sr = ChargeStatus.Charging) ∧
    (toInt16 craw < -4 →
      max17048_get_status (.ok craw) sr = ChargeStatus.Discharging) ∧
    (|toInt16 craw| ≤ 4 → 95 ≤ soc →
      max17048_get_status (.ok craw) sr = ChargeStatus.Full) ∧
    (|toInt16 craw| ≤ 4 → soc < 95 →
      max17048_get_status (.ok craw) sr = ChargeStatus.NotCharging) ∧
    max17048_get_status (.ok 5) (.ok 12800) = ChargeStatus.Charging ∧
    max17048_get_status (.ok 65531) (.ok 12800) = ChargeStatus.Discharging ∧
    max17048_get_status (.ok 0) (.ok 24576) = ChargeStatus.Full ∧
    max17048_get_status (.ok 0) (.ok 12800) = ChargeStatus.NotCharging := by
  have hred : max17048_get_status (.ok craw) sr =
      if toInt16 craw > 4 then ChargeStatus.Charging
      else if toInt16 craw < -4 then ChargeStatus.Discharging
      else if (soc : Int) ≥ 95 then ChargeStatus.Full
      else ChargeStatus.NotCharging := by
    simp only [max17048_get_status, max17048_get_crate, hs]
  refine ⟨rfl, ?_, ?_, ?_, ?_, rfl, rfl, rfl, rfl⟩
  · intro h
    rw [hred, if_pos (by omega)]
  · intro h
    rw [hred, if_neg (by omega), if_pos (by omega)]
  · intro h1 h2
    rw [abs_le] at h1
    rw [hred, if_neg (by omega), if_neg (by omega), if_pos (by omega)]
  · intro h1 h2
    rw [abs_le] at h1
    rw [hred, if_neg (by omega), if_neg (by omega), if_neg (by omega)]

/-- C4 witness: crate = 0 in the noise band with percent 96 gives Full. -/
theorem C4_status_classification_witness :
    max17048_get_status (.ok 0) (.ok 24576) = ChargeStatus.Full :=
  (C4_status_classification 0 0 (.ok 24576) 96 rfl).2.2.2.1 (by decide) (by decide)

/-- C2 counterexample: at crate = -10 (raw 0xFFF6) the driver reports
`-ENODATA`, contradicting "returns a value exactly when crate <= -10". -/
theorem C2_time_to_empty_counterexample :
    toInt16 65526 = -10 ∧
    max17048_get_time_to_empty (.ok 65526) (.ok 12800) = .error (-ENODATA) :=
  ⟨rfl, rfl⟩

/-- C2 amended: `max17048_get_time_to_empty` returns a value exactly when
crate < -10 (strictly below the -10 threshold) and `-ENODATA` otherwise;
when defined it equals div_s64(225000 * percent * 8, |crate| * 13), and
crate = -20 with percent = 50 yields 346153 = floor(225000*50*8/(20*13)). -/
theorem C2_time_to_empty_amended (craw : Nat) (sr : Except Int Nat)
    (soc : Nat) (hs : max17048_get_soc sr = .ok soc) :
    ((∃ v, max17048_get_time_to_empty (.ok craw) sr = .ok v) ↔
      toInt16 craw < -10) ∧
    (toInt16 craw < -10 →
      max17048_get_time_to_empty (.ok craw) sr =
        .ok (div_s64 (225000 * (soc : Int) * 8) (|toInt16 craw| * 13))) ∧
    (-10 ≤ toInt16 craw →
      max17048_get_time_to_empty (.ok craw) sr = .error (-ENODATA)) ∧
    max17048_get_time_to_empty (.ok 65516) (.ok 12800) = .ok 346153 := by
  have hred : max17048_get_time_to_empty (.ok craw) sr =
      if toInt16 craw ≥ -10 then .error (-ENODATA)
      else .ok (div_s64 (225000 * (soc : Int) * 8) (|toInt16 craw| * 13)) := by
    simp only [max17048_get_time_to_empty, max17048_get_crate, hs]
  refine ⟨⟨?_, ?_⟩, ?_, ?_, rfl⟩
  · rintro ⟨v, hv⟩
    by_contra hge
    rw [hred, if_pos (by omega)] at hv
    exact Except.noConfusion hv
  · intro hlt
    exact ⟨_, by rw [hred, if_neg (by omega)]⟩
  · intro hlt
    rw [hred, if_neg (by omega)]
  · intro hge
    rw [hred, if_pos (by omega)]

/-- C2 witness: crate = -20 (raw 0xFFEC), percent = 50 (raw 12800). -/
theorem C2_time_to_empty_amended_witness :
    max17048_get_time_to_empty (.ok 65516) (.ok 12800) = .ok 346153 :=
  (C2_time_to_empty_amended 65516 (.ok 12800) 50 rfl).2.2.2

/-- C3 counterexample: at crate = +10 the driver reports `-ENODATA`,
contradicting "returns a value exactly when crate >= +10". -/
theorem C3_time_to_full_counterexample :
    toInt16 10 = 10 ∧
    max17048_get_time_to_full (.ok 10) (.ok 12800) = .error (-ENODATA) :=
  ⟨rfl, rfl⟩

/-- C3 amended: `max17048_get_time_to_full` returns a value exactly when
crate > +10 (strictly above the +10 threshold) and `-ENODATA` otherwise;
when defined it equals div_s64(225000 * (100 - percent), crate * 13) with no
x8 tuning factor (asymmetric with time-to-empty). -/
theorem C3_time_to_full_amended (craw : Nat) (sr : Except Int Nat)
    (soc : Nat) (hs : max17048_get_soc sr = .ok soc) :
    ((∃ v, max17048_get_time_to_full (.ok craw) sr = .ok v) ↔
      10 < toInt16 craw) ∧
    (10 < toInt16 craw →
      max17048_get_time_to_full (.ok craw) sr =
        .ok (div_s64 (225000 * (100 - (soc : Int))) (toInt16 craw * 13))) ∧
    (toInt16 craw ≤ 10 →
      max17048_get_time_to_full (.ok craw) sr = .error (-ENODATA)) ∧
    max17048_get_time_to_full (.ok 20) (.ok 12800) = .ok 43269 := by
  have hred : max17048_get_time_to_full (.ok craw) sr =
      if toInt16 craw ≤ 10 then .error (-ENODATA)
      else .ok (div_s64 (225000 * (100 - (soc : Int))) (toInt16 craw * 13)) := by
    simp only [max17048_get_time_to_full, max17048_get_crate, hs]
  refine ⟨⟨?_, ?_⟩, ?_, ?_, rfl⟩
  · rintro ⟨v, hv⟩
    by_contra hge
    rw [hred, if_pos (by omega)] at hv
    exact Except.noConfusion hv
  · intro hlt
    exact ⟨_, by rw [hred, if_neg (by omega)]⟩
  · intro hlt
    rw [hred, if_neg (by omega)]
  · intro hge
    rw [hred, if_pos (by omega)]

/-- C3 witness: crate = +20, percent = 50 gives 43269 = floor(225000*50/260). -/
theorem C3_time_to_full_amended_witness :
    max17048_get_time_to_full (.ok 20) (.ok 12800) = .ok 43269 :=
  (C3_time_to_full_amended 20 (.ok 12800) 50 rfl).2.2.2

/-- C7: a (negative) transport error on the crate or SOC read propagates
unchanged through every derived estimate that needs that register -
current, time-to-empty, time-to-full, charge-now, energy-now - and a crate
read failure leaves the independently computed voltage of the same pass
unchanged. -/
theorem C7_error_propagation (e : Int) (_he : e < 0) (craw cap en : Nat)
    (sr vr : Except Int Nat) :
    max17048_get_current (.error e) cap = .error e ∧
    max17048_get_time_to_empty (.error e) sr = .error e ∧
    (toInt16 craw < -10 →
      max17048_get_time_to_empty (.ok craw) (.error e) = .error e) ∧
    max17048_get_time_to_full (.error e) sr = .error e ∧
    (10 < toInt16 craw →
      max17048_get_time_to_full (.ok craw) (.error e) = .error e) ∧
    battery_charge_now (.error e) cap = .error e ∧
    battery_energy_now (.error e) en = .error e ∧
    (refresh_pass_voltage_current vr (.error e) cap).1 = max17048_get_vcell vr := by
  refine ⟨rfl, rfl, ?_, rfl, ?_, rfl, rfl, rfl⟩
  · intro h
    simp only [max17048_get_time_to_empty, max17048_get_crate, max17048_get_soc]
    rw [if_neg (by omega)]
  · intro h
    simp only [max17048_get_time_to_full, max17048_get_crate, max17048_get_soc]
    rw [if_neg (by omega)]

/-- C7 witness: errno -5 propagates through the current estimate. -/
theorem C7_error_propagation_witness :
    max17048_get_current (.error (-5)) 5000000 = .error (-5) :=
  (C7_error_propagation (-5) (by decide) 0 5000000 18500000 (.ok 0) (.ok 0)).1

/-- C8: `max17048_get_capacity_level` returns `Unknown` when the SOC read
fails; otherwise `Full` when status = Full or percent >= 99 (the Full check
taking precedence over the lower thresholds), `Critical` when percent <= 5,
`Low` when percent <= 15, `Normal` for every remaining percent. -/
theorem C8_capacity_level (e : Int) (cr sr2 sr : Except Int Nat) (soc : Nat)
    (hs : max17048_get_soc sr = .ok soc) :
    max17048_get_capacity_level (.error e) cr sr2 = CapacityLevel.Unknown ∧
    (max17048_get_status cr sr2 = ChargeStatus.Full →
      max17048_get_capacity_level sr cr sr2 = CapacityLevel.Full) ∧
    (99 ≤ soc →
      max17048_get_capacity_level sr cr sr2 = CapacityLevel.Full) ∧
    (max17048_get_status cr sr2 ≠ ChargeStatus.Full → soc ≤ 5 →
      max17048_get_capacity_level sr cr sr2 = CapacityLevel.Critical) ∧
    (max17048_get_status cr sr2 ≠ ChargeStatus.Full → 5 < soc → soc ≤ 15 →
      max17048_get_capacity_level sr cr sr2 = CapacityLevel.Low) ∧
    (max17048_get_status cr sr2 ≠ ChargeStatus.Full → 15 < soc → soc < 99 →
      max17048_get_capacity_level sr cr sr2 = CapacityLevel.Normal) := by
  have hred : max17048_get_capacity_level sr cr sr2 =
      if max17048_get_status cr sr2 = ChargeStatus.Full ∨ 99 ≤ soc then
        CapacityLevel.Full
      else if soc ≤ 5 then CapacityLevel.Critical
      else if soc ≤ 15 then CapacityLevel.Low
      else CapacityLevel.Normal := by
    simp only [max17048_get_capacity_level, hs, ge_iff_le]
  refine ⟨rfl, ?_, ?_, ?_, ?_, ?_⟩
  · intro h
    rw [hred, if_pos (Or.inl h)]
  · intro h
    rw [hred, if_pos (Or.inr h)]
  · intro h1 h2
    rw [hred, if_neg (by simp [h1]; omega), if_pos h2]
  · intro h1 h2 h3
    rw [hred, if_neg (by simp [h1]; omega), if_neg (by omega), if_pos h3]
  · intro h1 h2 h3
    rw [hred, if_neg (by simp [h1]; omega), if_neg (by omega), if_neg (by omega)]

/-- C8 witness: SOC read failure gives the Unknown capacity level. -/
theorem C8_capacity_level_witness :
    max17048_get_capacity_level (.error (-5)) (.ok 0) (.ok 0) =
      CapacityLevel.Unknown :=
  (C8_capacity_level (-5) (.ok 0) (.ok 0) (.ok 12800) 50 rfl).1

/-- C1 counterexample: a legacy `battery-capacity` of 15,000 mAh resolves to
15,000,000 uAh, above the claimed 10,000,000 uAh clamp - the clamp runs
before the legacy fallback is applied. -/
theorem C1_design_clamping_counterexample :
    resolve_design_capacity none (some 15000) = 15000000 ∧
    10000000 < resolve_design_capacity none (some 15000) :=
  ⟨rfl, by decide⟩

/-- Resolved capacity when both configuration properties are absent. -/
theorem resolve_design_capacity_none_none :
    resolve_design_capacity none none = 5000000 := rfl

/-- Resolved capacity when the explicit microamp-hour property is present:
a zero value falls back to the default, anything else is clamped at
10,000,000 uAh. -/
theorem resolve_design_capacity_some (v : Nat) (lm : Option Nat) :
    resolve_design_capacity (some v) lm =
      if v = 0 then 5000000 else min v 10000000 := by
  show (if (if v > 10000000 then 10000000 else v) = 0 then 5000000
        else (if v > 10000000 then 10000000 else v)) =
       if v = 0 then 5000000 else min v 10000000
  by_cases h : v > 10000000
  · rw [if_pos h, if_neg (by omega), if_neg (by omega)]
    omega
  · rw [if_neg h]
    by_cases hv : v = 0
    · simp [hv]
    · rw [if_neg hv, if_neg hv]
      omega

/-- Resolved capacity on the legacy milliamp-hour path: an in-range value is
converted x1000 with no 10,000,000 uAh clamp, anything else defaults. -/
theorem resolve_design_capacity_legacy (m : Nat) :
    resolve_design_capacity none (some m) =
      if 0 < m ∧ m < 20000 then m * 1000 else 5000000 := by
  show (if (if 0 < m ∧ m < 20000 then m * 1000 % 4294967296 else 0) = 0
          then 5000000
        else (if 0 < m ∧ m < 20000 then m * 1000 % 4294967296 else 0)) =
       if 0 < m ∧ m < 20000 then m * 1000 else 5000000
  by_cases h : 0 < m ∧ m < 20000
  · have hm : m * 1000 % 4294967296 = m * 1000 := Nat.mod_eq_of_lt (by omega)
    rw [if_pos h, hm, if_neg (by omega), if_pos h]
  · rw [if_neg h, if_neg h]
    simp

/-- Bounds of `resolve_design_capacity`: the result is in [1, 19,999,000]
for every configuration source. -/
theorem resolve_design_capacity_bounds (ec lm : Option Nat) :
    1 ≤ resolve_design_capacity ec lm ∧
    resolve_design_capacity ec lm ≤ 19999000 := by
  rcases ec with _ | v
  · rcases lm with _ | m
    · rw [resolve_design_capacity_none_none]
      omega
    · rw [resolve_design_capacity_legacy]
      split <;> omega
  · rw [resolve_design_capacity_some]
    split <;> omega

/-- Bounds of `resolve_design_energy`: given a capacity in
[1, 19,999,000] the result is in [1, 18,500,000]. -/
theorem resolve_design_energy_bounds (c : Nat) (hc1 : 1 ≤ c)
    (hc2 : c ≤ 19999000) (ee : Option Nat) :
    1 ≤ resolve_design_energy c ee ∧ resolve_design_energy c ee ≤ 18500000 := by
  have hm : c * 37 / 10 % 4294967296 = c * 37 / 10 := Nat.mod_eq_of_lt (by omega)
  rcases ee with _ | v
  · have he : resolve_design_energy c none =
        if c * 37 / 10 > 18500000 then 18500000 else c * 37 / 10 := by
      show (if (c * 37 / 10 % 4294967296) > 18500000 then 18500000
            else (c * 37 / 10 % 4294967296)) = _
      rw [hm]
    rw [he]
    split <;> omega
  · by_cases hv : v = 0
    · subst hv
      have he : resolve_design_energy c (some 0) =
          if c * 37 / 10 > 18500000 then 18500000 else c * 37 / 10 := by
        show (if (c * 37 / 10 % 4294967296) > 18500000 then 18500000
              else (c * 37 / 10 % 4294967296)) = _
        rw [hm]
      rw [he]
      split <;> omega
    · have he : resolve_design_energy c (some v) =
          if v > 18500000 then 18500000 else v := by
        show (if (if v = 0 then c * 37 / 10 % 4294967296 else v) > 18500000
                then 18500000
              else (if v = 0 then c * 37 / 10 % 4294967296 else v)) = _
        rw [if_neg hv]
      rw [he]
      split <;> omega

/-- C1 amended: after initialization the design capacity lies in
[1, 19,999,000] uAh and the design energy in [1, 18,500,000] uWh; the
10,000,000 uAh upper clamp holds whenever the explicit microamp-hour
property supplied the value (and for the default), but not for the legacy
milliamp-hour fallback; an explicit capacity of 15,000,000 uAh is clamped
to 10,000,000 uAh and its derived energy to 18,500,000 uWh. -/
theorem C1_design_clamping_amended (ec lm ee : Option Nat) :
    1 ≤ resolve_design_capacity ec lm ∧
    resolve_design_capacity ec lm ≤ 19999000 ∧
    (∀ v lm2, resolve_design_capacity (some v) lm2 ≤ 10000000) ∧
    1 ≤ resolve_design_energy (resolve_design_capacity ec lm) ee ∧
    resolve_design_energy (resolve_design_capacity ec lm) ee ≤ 18500000 ∧
    resolve_design_capacity (some 15000000) none = 10000000 ∧
    resolve_design_energy (resolve_design_capacity (some 15000000) none) none =
      18500000 := by
  obtain ⟨h1, h2⟩ := resolve_design_capacity_bounds ec lm
  obtain ⟨h3, h4⟩ := resolve_design_energy_bounds _ h1 h2 ee
  refine ⟨h1, h2, ?_, h3, h4, rfl, by decide⟩
  intro v lm2
  rw [resolve_design_capacity_some]
  split <;> omega

end Max17048
